import Mathlib

/-!
Verification development for the large-file upload protocol engine of
`src/main.py` (functions `upload_file_part`, `upload_large_file`, the
`send_media` routing guard and the `compute_md5` helper), shallowly embedded
as executable Lean definitions.  Network transport outcomes (`bot.send`) are
given as an explicit oracle parameter; side effects (chunk reads, wire calls,
backoff sleeps, per-attempt uploader invocations) are recorded in an event
trace; the local file system is a list of existing paths.
-/

namespace Upload

/-- API constant from main.py line 28: maximum parts for a Premium account. -/
def MAX_PREMIUM_PARTS : Nat := 4000

/-- API constant from main.py line 29: maximum parts for a Regular account. -/
def MAX_REGULAR_PARTS : Nat := 2000

/-- API constant from main.py line 30: fixed chunk size, 512 KiB. -/
def PART_SIZE : Nat := 524288

/-- API constant from main.py line 31: big-file threshold, 10 MiB. -/
def BIG_FILE_THRESHOLD : Nat := 10 * 1024 * 1024

/-- Tier part limit used at main.py line 82:
`MAX_PREMIUM_PARTS if is_premium else MAX_REGULAR_PARTS`. -/
def tier_limit (is_premium : Bool) : Nat :=
  if is_premium then MAX_PREMIUM_PARTS else MAX_REGULAR_PARTS

/-- Part count from main.py line 112: `(file_size + PART_SIZE - 1) // PART_SIZE`. -/
def totalParts (file_size : Nat) : Nat :=
  (file_size + PART_SIZE - 1) / PART_SIZE

/-- Wire-method selection from main.py line 93:
`"upload.saveBigFilePart" if total_parts * PART_SIZE > BIG_FILE_THRESHOLD else "upload.saveFilePart"`. -/
def wire_method (total_parts : Nat) : String :=
  if BIG_FILE_THRESHOLD < total_parts * PART_SIZE then "upload.saveBigFilePart"
  else "upload.saveFilePart"

/-- Observable effects of an upload run: a chunk read from disk (lines 126-128),
one invocation of `upload_file_part` by the retry loop (line 131), one network
call `bot.send` (lines 92-100), and one backoff sleep (line 141). -/
inductive Event where
  | chunkRead (part_index : Nat) (len : Nat)
  | partCall (part_index : Nat) (attempt : Nat) (len : Nat)
  | netSend (method : String) (file_id : Nat) (part_index : Nat)
  | sleep (seconds : Nat)
deriving DecidableEq

/-- Whether an event is a network part-upload call (`bot.send`). -/
def Event.isNetSend : Event → Bool
  | Event.netSend _ _ _ => true
  | _ => false

/-- Outcome of one `bot.send` transport call: success, or an exception whose
message may or may not contain `flood_premium_wait` (main.py line 104). -/
inductive NetOutcome where
  | ok
  | err (flood_premium : Bool)

/-- Result of one `upload_file_part` call: `Except.error` models an
`UploadError` escaping to the caller, `Except.ok b` models `return b`;
`events` lists the network calls it made. -/
structure PartResult where
  result : Except String Bool
  events : List Event

/-- Boolean success test for a scheduler task result. -/
def except_ok (e : Except String Unit) : Bool :=
  match e with
  | Except.ok _ => true
  | Except.error _ => false

/-- Whole-file digest, main.py lines 64-70: the file is streamed and folded
into a hash state.  `hashlib.md5` itself is an external library, so the
per-block compression is modelled abstractly as a deterministic fold over the
bytes; the claims depend only on when the digest is computed and attached,
never on its value. -/
def compute_md5 (file : List Nat) : Nat :=
  file.foldl (fun h b => h * 256 + b % 256 + 1) 0

/-- main.py lines 72-107, `upload_file_part`.  The three validation failures
(part limit, oversized non-final chunk, empty chunk) `raise UploadError` with
Portuguese messages; the function's own `except` clause catches them, finds no
`flood_premium_wait` substring, logs, and returns `False` — hence
`Except.ok false` here.  The wire call happens only when `total_parts > 1`; a
transport exception containing `flood_premium_wait` is re-raised as
`UploadError` (escapes, `Except.error`), any other transport exception yields
`return False`.  The Python comparison `part_index != total_parts - 1` over
ints is rendered as `part_index + 1 ≠ total_parts` to avoid truncated `Nat`
subtraction (they agree for every `total_parts`, including `0`). -/
def upload_file_part (net : NetOutcome) (file_id part_index bytes_len total_parts : Nat)
    (is_premium : Bool) : PartResult :=
  if tier_limit is_premium < total_parts then
    { result := Except.ok false, events := [] }
  else if PART_SIZE < bytes_len ∧ part_index + 1 ≠ total_parts then
    { result := Except.ok false, events := [] }
  else if bytes_len = 0 then
    { result := Except.ok false, events := [] }
  else if 1 < total_parts then
    match net with
    | NetOutcome.ok =>
      { result := Except.ok true,
        events := [Event.netSend (wire_method total_parts) file_id part_index] }
    | NetOutcome.err flood_premium =>
      if flood_premium then
        { result := Except.error "Limite de upload atingido para conta regular",
          events := [Event.netSend (wire_method total_parts) file_id part_index] }
      else
        { result := Except.ok false,
          events := [Event.netSend (wire_method total_parts) file_id part_index] }
  else
    { result := Except.ok true, events := [] }

/-- main.py lines 130-142: the retry loop of the inner `upload_part` task.
`for attempt in range(3)` calls `upload_file_part`; on `True` the task
returns, otherwise it sleeps `2 ** attempt` seconds and retries; when the
range is exhausted it raises `UploadError("Falha no upload da parte ...")`.
An `UploadError` raised by `upload_file_part` itself (the
`flood_premium_wait` re-raise) propagates out of the loop at once.  `fuel` is
the number of remaining attempts (3 at the top call), `attempt` the loop
counter. -/
def run_attempts (net : Nat → NetOutcome) (file_id part_index bytes_len total_parts : Nat)
    (is_premium : Bool) : Nat → Nat → Except String Unit × List Event
  | 0, _ => (Except.error "Falha no upload da parte", [])
  | fuel + 1, attempt =>
    let r := upload_file_part (net attempt) file_id part_index bytes_len total_parts is_premium
    match r.result with
    | Except.error msg => (Except.error msg, Event.partCall part_index attempt bytes_len :: r.events)
    | Except.ok true => (Except.ok (), Event.partCall part_index attempt bytes_len :: r.events)
    | Except.ok false =>
      let rest :=
        run_attempts net file_id part_index bytes_len total_parts is_premium fuel (attempt + 1)
      (rest.1,
        (Event.partCall part_index attempt bytes_len :: r.events)
          ++ Event.sleep (2 ^ attempt) :: rest.2)

/-- main.py lines 126-128: `f.seek(part_index * PART_SIZE); f.read(PART_SIZE)`.
The file on disk is a byte list. -/
def read_chunk (file : List Nat) (part_index : Nat) : List Nat :=
  (file.drop (part_index * PART_SIZE)).take PART_SIZE

/-- main.py lines 124-142: one `upload_part(part_index)` task body — read the
chunk once, then run the 3-attempt retry loop on it.  Returns the task's
outcome (`Except.error` = the task raised `UploadError`) and its event
trace. -/
def upload_part (net : Nat → NetOutcome) (file : List Nat)
    (file_id part_index total_parts : Nat) (is_premium : Bool) :
    Except String Unit × List Event :=
  let data := read_chunk file part_index
  let r := run_attempts net file_id part_index data.length total_parts is_premium 3 0
  (r.1, Event.chunkRead part_index data.length :: r.2)

/-- main.py line 144: `tasks = [upload_part(i) for i in range(total_parts)]`.
`is_premium` is the hard-coded `False` of line 116. -/
def run_parts (net : Nat → Nat → NetOutcome) (file : List Nat)
    (file_id total_parts : Nat) : List (Except String Unit × List Event) :=
  (List.range total_parts).map (fun i => upload_part (net i) file file_id i total_parts false)

/-- How a call to `upload_large_file` ends: normal `return True`, the
`except UploadError` path (`return False`), or a non-`UploadError` exception
propagating past the handler (e.g. from `send_media_group`). -/
inductive Outcome where
  | success
  | failed
  | raised
deriving DecidableEq

/-- main.py lines 148-155: the `input_file` dict — `_` tag (`InputFileBig` vs
`InputFile`), id, part count, display name, and the `md5_checksum` key that is
added only on the small-file path. -/
structure InputFileObj where
  isBig : Bool
  id : Nat
  parts : Nat
  name : String
  md5_checksum : Option Nat
deriving DecidableEq

/-- Observable result of one `upload_large_file` call: how it ended, the file
reference that was built (if any), whether `compute_md5` ran, the event trace
of all part tasks, and the file system (list of existing paths) after the
`finally` block. -/
structure UploadResult where
  outcome : Outcome
  reference : Option InputFileObj
  md5_computed : Bool
  events : List Event
  files_after : List String

/-- main.py lines 109-173, `upload_large_file`.  The transport oracle `net`
gives the outcome of `bot.send` per (part index, attempt); `send_ok` is
whether the final `send_media_group` call succeeds (a failure there is a
non-`UploadError` exception, outcome `raised`); `file` is the byte content at
`file_path`; `file_id` stands for `random.getrandbits(64)`; `files` is the
local file system.  `total_parts`, `use_big_file` and the conditional
`compute_md5` (lines 111-115) happen before any task runs; `asyncio.gather`
raises the first task `UploadError`, caught at line 167 (`return False`, no
reference); the `finally` block (lines 171-173) removes `file_path` on every
path.  `os.path.basename` is an external path helper and is elided (the
display name is not touched by any claim). -/
def upload_large_file (net : Nat → Nat → NetOutcome) (send_ok : Bool) (file : List Nat)
    (file_id : Nat) (file_path : String) (files : List String) : UploadResult :=
  let file_size := file.length
  let total_parts := totalParts file_size
  let use_big_file := decide (BIG_FILE_THRESHOLD < file_size)
  let md5_checksum : Option Nat := if use_big_file then none else some (compute_md5 file)
  let parts := run_parts net file file_id total_parts
  let all_ok := parts.all (fun p => except_ok p.1)
  { outcome :=
      if all_ok then (if send_ok then Outcome.success else Outcome.raised) else Outcome.failed
  , reference :=
      if all_ok then
        some { isBig := use_big_file, id := file_id, parts := total_parts,
               name := file_path, md5_checksum := md5_checksum }
      else none
  , md5_computed := md5_checksum.isSome
  , events := (parts.map Prod.snd).flatten
  , files_after := files.filter (fun q => q != file_path) }

/-- main.py lines 177-185: `send_media` routes a file to `upload_large_file`
exactly when it passes the `MAX_FILE_SIZE` gate and exceeds 50 MiB
(`file_size > 50 * 1024 * 1024`). -/
def send_media_large_route (max_file_size file_size : Nat) : Bool :=
  decide (file_size ≤ max_file_size) && decide (50 * 1024 * 1024 < file_size)

/-- Phase of one `upload_part` task with respect to the admission gate
`asyncio.Semaphore(4)` of main.py line 122: not yet admitted, inside the
`async with semaphore` region but not in a network call, inside a `bot.send`
network call, or finished (semaphore released). -/
inductive Phase where
  | waiting
  | holding
  | inNet
  | done
deriving DecidableEq

/-- State of the scheduler: free permits of the semaphore plus the bag of task
phases.  Tasks are interchangeable for the admission discipline, so they are
kept as a multiset. -/
structure Sched where
  avail : Nat
  tasks : Multiset Phase

/-- Interleaving steps of the semaphore discipline of main.py lines 121-145:
a waiting task is admitted only when a permit is free (`avail` has shape
`a + 1`), network calls happen only inside the admitted region, and finishing
a task returns its permit.  A task may enter and leave the network region
several times (one `bot.send` per retry attempt). -/
inductive SchedStep : Sched → Sched → Prop where
  | acquire (a : Nat) (m : Multiset Phase) :
      SchedStep ⟨a + 1, Phase.waiting ::ₘ m⟩ ⟨a, Phase.holding ::ₘ m⟩
  | enterNet (a : Nat) (m : Multiset Phase) :
      SchedStep ⟨a, Phase.holding ::ₘ m⟩ ⟨a, Phase.inNet ::ₘ m⟩
  | exitNet (a : Nat) (m : Multiset Phase) :
      SchedStep ⟨a, Phase.inNet ::ₘ m⟩ ⟨a, Phase.holding ::ₘ m⟩
  | release (a : Nat) (m : Multiset Phase) :
      SchedStep ⟨a, Phase.holding ::ₘ m⟩ ⟨a + 1, Phase.done ::ₘ m⟩

/-- Initial scheduler state for `n = total_parts` tasks: `asyncio.Semaphore(4)`
fresh, every task pending. -/
def initSched (n : Nat) : Sched :=
  ⟨4, Multiset.replicate n Phase.waiting⟩

/-- States reachable during an upload of `n` parts. -/
inductive SchedReach (n : Nat) : Sched → Prop where
  | refl : SchedReach n (initSched n)
  | tail (s t : Sched) : SchedReach n s → SchedStep s t → SchedReach n t

/-! ## Projection lemmas for `upload_large_file` -/

/-- The event trace of an upload is the concatenation of the task traces. -/
lemma upload_events_eq (net : Nat → Nat → NetOutcome) (send_ok : Bool) (file : List Nat)
    (file_id : Nat) (file_path : String) (files : List String) :
    (upload_large_file net send_ok file file_id file_path files).events
      = ((run_parts net file file_id (totalParts file.length)).map Prod.snd).flatten := rfl

/-- How the outcome of an upload is decided. -/
lemma upload_outcome_eq (net : Nat → Nat → NetOutcome) (send_ok : Bool) (file : List Nat)
    (file_id : Nat) (file_path : String) (files : List String) :
    (upload_large_file net send_ok file file_id file_path files).outcome
      = if (run_parts net file file_id (totalParts file.length)).all (fun p => except_ok p.1)
        then (if send_ok then Outcome.success else Outcome.raised)
        else Outcome.failed := rfl

/-- The reference built by an upload. -/
lemma upload_reference_eq (net : Nat → Nat → NetOutcome) (send_ok : Bool) (file : List Nat)
    (file_id : Nat) (file_path : String) (files : List String) :
    (upload_large_file net send_ok file file_id file_path files).reference
      = if (run_parts net file file_id (totalParts file.length)).all (fun p => except_ok p.1)
        then some { isBig := decide (BIG_FILE_THRESHOLD < file.length), id := file_id,
                    parts := totalParts file.length, name := file_path,
                    md5_checksum :=
                      if decide (BIG_FILE_THRESHOLD < file.length) then none
                      else some (compute_md5 file) }
        else none := rfl

/-- The file system left behind by an upload. -/
lemma upload_files_after_eq (net : Nat → Nat → NetOutcome) (send_ok : Bool) (file : List Nat)
    (file_id : Nat) (file_path : String) (files : List String) :
    (upload_large_file net send_ok file file_id file_path files).files_after
      = files.filter (fun q => q != file_path) := rfl

/-- Whether the digest was computed, as a function of the protocol choice. -/
lemma upload_md5_computed_eq (net : Nat → Nat → NetOutcome) (send_ok : Bool) (file : List Nat)
    (file_id : Nat) (file_path : String) (files : List String) :
    (upload_large_file net send_ok file file_id file_path files).md5_computed
      = !decide (BIG_FILE_THRESHOLD < file.length) := by
  by_cases hb : BIG_FILE_THRESHOLD < file.length <;> simp [upload_large_file, hb]

/-! ## Helper lemmas about single parts -/

/-- With the part limit exceeded, `upload_file_part` raises and swallows
`UploadError`, returning `False` with no network call. -/
lemma upload_file_part_limit (net : NetOutcome) (file_id part_index bytes_len total_parts : Nat)
    (prem : Bool) (h : tier_limit prem < total_parts) :
    upload_file_part net file_id part_index bytes_len total_parts prem
      = { result := Except.ok false, events := [] } := by
  simp [upload_file_part, h]

/-- With the part limit exceeded, the retry loop makes three attempts with
backoff, then fails the task; no network call occurs on any attempt. -/
lemma run_attempts_limit (net : Nat → NetOutcome) (file_id part_index bytes_len total_parts : Nat)
    (prem : Bool) (h : tier_limit prem < total_parts) :
    run_attempts net file_id part_index bytes_len total_parts prem 3 0
      = (Except.error "Falha no upload da parte",
         [Event.partCall part_index 0 bytes_len, Event.sleep 1,
          Event.partCall part_index 1 bytes_len, Event.sleep 2,
          Event.partCall part_index 2 bytes_len, Event.sleep 4]) := by
  simp [run_attempts, upload_file_part_limit _ _ _ _ _ _ h, pow_succ, pow_zero]

/-- Task-level version of `run_attempts_limit`: the chunk is read first. -/
lemma upload_part_limit (net : Nat → NetOutcome) (file : List Nat)
    (file_id part_index total_parts : Nat) (prem : Bool)
    (h : tier_limit prem < total_parts) :
    upload_part net file file_id part_index total_parts prem
      = (Except.error "Falha no upload da parte",
         [Event.chunkRead part_index (read_chunk file part_index).length,
          Event.partCall part_index 0 (read_chunk file part_index).length, Event.sleep 1,
          Event.partCall part_index 1 (read_chunk file part_index).length, Event.sleep 2,
          Event.partCall part_index 2 (read_chunk file part_index).length, Event.sleep 4]) := by
  simp only [upload_part]
  rw [run_attempts_limit _ _ _ _ _ _ h]

/-- One failed task makes the aggregate `all` check of the gather false. -/
lemma all_ok_false_of_fail (net : Nat → Nat → NetOutcome) (file : List Nat)
    (file_id total_parts i : Nat) (hi : i < total_parts)
    (hfail : except_ok (upload_part (net i) file file_id i total_parts false).1 = false) :
    (run_parts net file file_id total_parts).all (fun p => except_ok p.1) = false := by
  cases hc : (run_parts net file file_id total_parts).all (fun p => except_ok p.1) with
  | false => rfl
  | true =>
    have hmem : upload_part (net i) file file_id i total_parts false
        ∈ run_parts net file file_id total_parts := by
      unfold run_parts
      exact List.mem_map_of_mem _ (List.mem_range.mpr hi)
    have := List.all_eq_true.mp hc _ hmem
    simp only [hfail] at this
    exact absurd this (by simp)

/-- A single-part upload passes every validation and returns `True` with no
network call. -/
lemma upload_file_part_single (net : NetOutcome) (file_id part_index bytes_len : Nat)
    (prem : Bool) (h0 : bytes_len ≠ 0) (h1 : bytes_len ≤ PART_SIZE) :
    upload_file_part net file_id part_index bytes_len 1 prem
      = { result := Except.ok true, events := [] } := by
  have hl : ¬ tier_limit prem < 1 := by cases prem <;> decide
  have hsz : ¬ PART_SIZE < bytes_len := by omega
  simp [upload_file_part, hl, hsz, h0]

/-- Retry loop for a valid single-part file: first attempt succeeds, no
network call. -/
lemma run_attempts_single (net : Nat → NetOutcome) (file_id part_index bytes_len : Nat)
    (prem : Bool) (h0 : bytes_len ≠ 0) (h1 : bytes_len ≤ PART_SIZE) :
    run_attempts net file_id part_index bytes_len 1 prem 3 0
      = (Except.ok (), [Event.partCall part_index 0 bytes_len]) := by
  simp [run_attempts, upload_file_part_single _ _ _ _ _ h0 h1]

/-- Task trace for a single-part nonempty file: one chunk read, one uploader
invocation, no network call. -/
lemma upload_part_single (net : Nat → NetOutcome) (file : List Nat) (file_id : Nat)
    (h : file ≠ []) :
    upload_part net file file_id 0 1 false
      = (Except.ok (), [Event.chunkRead 0 (min PART_SIZE file.length),
                        Event.partCall 0 0 (min PART_SIZE file.length)]) := by
  have hlen : (read_chunk file 0).length = min PART_SIZE file.length := by
    simp [read_chunk]
  have hpos : 0 < file.length := List.length_pos.mpr h
  have hP : 0 < PART_SIZE := by decide
  have h0 : (read_chunk file 0).length ≠ 0 := by rw [hlen]; omega
  have h1 : (read_chunk file 0).length ≤ PART_SIZE := by rw [hlen]; omega
  simp only [upload_part]
  rw [run_attempts_single _ _ _ _ _ h0 h1, hlen]

/-- When every transport call fails without `flood_premium_wait`, a valid
multi-part chunk exhausts its three attempts and the task fails. -/
lemma run_attempts_transport_fail (net : Nat → NetOutcome)
    (hnet : ∀ a, net a = NetOutcome.err false)
    (file_id part_index bytes_len total_parts : Nat) (prem : Bool)
    (hlim : ¬ tier_limit prem < total_parts)
    (hsz : ¬ PART_SIZE < bytes_len)
    (h0 : bytes_len ≠ 0) (h1 : 1 < total_parts) :
    (run_attempts net file_id part_index bytes_len total_parts prem 3 0).1
      = Except.error "Falha no upload da parte" := by
  have hstep : ∀ a : Nat, upload_file_part (net a) file_id part_index bytes_len total_parts prem
      = { result := Except.ok false,
          events := [Event.netSend (wire_method total_parts) file_id part_index] } := by
    intro a
    rw [hnet a]
    simp [upload_file_part, hlim, hsz, h0, h1]
  simp [run_attempts, hstep]

/-- Splitting a list into `m` consecutive `c`-sized blocks and flattening
them back yields its first `m * c` elements. -/
lemma flatten_chunks (l : List Nat) (c m : Nat) :
    ((List.range m).map (fun i => (l.drop (i * c)).take c)).flatten = l.take (m * c) := by
  induction m with
  | zero => simp
  | succ k ih =>
    rw [List.range_succ, List.map_append, List.flatten_append, ih]
    simp only [List.map_cons, List.map_nil, List.flatten_cons, List.flatten_nil,
      List.append_nil]
    rw [Nat.succ_mul, List.take_add]

/-- Behaviour of a whole upload whose part count exceeds the Regular tier
limit: the upload fails as a unit, chunk 0 is read in full, and no network
part-upload call is ever made. -/
lemma upload_large_file_limit (net : Nat → Nat → NetOutcome) (send_ok : Bool) (file : List Nat)
    (file_id : Nat) (file_path : String) (files : List String)
    (h : MAX_REGULAR_PARTS * PART_SIZE < file.length) :
    (upload_large_file net send_ok file file_id file_path files).outcome = Outcome.failed
    ∧ Event.chunkRead 0 PART_SIZE ∈ (upload_large_file net send_ok file file_id file_path files).events
    ∧ ∀ e ∈ (upload_large_file net send_ok file file_id file_path files).events,
        e.isNetSend = false := by
  have htp : tier_limit false < totalParts file.length := by
    have h2 : tier_limit false = 2000 := by decide
    rw [h2]
    simp only [MAX_REGULAR_PARTS, PART_SIZE] at h
    simp only [totalParts, PART_SIZE]
    omega
  have htp0 : 0 < totalParts file.length := by
    have : (0:Nat) < 2000 := by omega
    calc (0:Nat) < 2000 := this
      _ = tier_limit false := by decide
      _ < totalParts file.length := htp
  have hlen0 : (read_chunk file 0).length = PART_SIZE := by
    simp only [read_chunk, List.length_take, List.length_drop, Nat.zero_mul, Nat.sub_zero]
    simp only [MAX_REGULAR_PARTS, PART_SIZE] at h ⊢
    omega
  have hpart : ∀ i, upload_part (net i) file file_id i (totalParts file.length) false
      = (Except.error "Falha no upload da parte",
         [Event.chunkRead i (read_chunk file i).length,
          Event.partCall i 0 (read_chunk file i).length, Event.sleep 1,
          Event.partCall i 1 (read_chunk file i).length, Event.sleep 2,
          Event.partCall i 2 (read_chunk file i).length, Event.sleep 4]) :=
    fun i => upload_part_limit _ _ _ _ _ _ htp
  have hfail0 : except_ok (upload_part (net 0) file file_id 0 (totalParts file.length) false).1
      = false := by rw [hpart 0]; rfl
  have hall := all_ok_false_of_fail net file file_id (totalParts file.length) 0 htp0 hfail0
  refine ⟨?_, ?_, ?_⟩
  · rw [upload_outcome_eq, if_neg (by simp [hall])]
  · rw [upload_events_eq]
    refine List.mem_flatten.mpr ⟨(upload_part (net 0) file file_id 0 (totalParts file.length) false).2, ?_, ?_⟩
    · refine List.mem_map_of_mem _ ?_
      unfold run_parts
      exact List.mem_map_of_mem _ (List.mem_range.mpr htp0)
    · rw [hpart 0]
      simp only [hlen0]
      exact List.mem_cons_self _ _
  · intro e he
    rw [upload_events_eq] at he
    obtain ⟨l, hl, hel⟩ := List.mem_flatten.mp he
    obtain ⟨p, hp, rfl⟩ := List.mem_map.mp hl
    unfold run_parts at hp
    obtain ⟨i, _, rfl⟩ := List.mem_map.mp hp
    rw [hpart i] at hel
    simp only [List.mem_cons, List.not_mem_nil, or_false] at hel
    rcases hel with rfl | rfl | rfl | rfl | rfl | rfl | rfl <;> rfl

/-! ## Claim theorems -/

/-- Claim C1 (amended).  When `totalParts` exceeds the Regular-tier part limit
(`MAX_REGULAR_PARTS = 2000`), the upload does fail with zero network
part-upload calls (`bot.send` is never reached), but the rejection is not
eager: the first chunk is read in full from the file, the limit check runs
inside `upload_file_part` per attempt, its `UploadError` is swallowed and the
chunk is retried, and the upload only fails after the retry budget. -/
theorem C1_part_limit_not_eager (net : Nat → Nat → NetOutcome) (send_ok : Bool)
    (file : List Nat) (file_id : Nat) (file_path : String) (files : List String)
    (h : MAX_REGULAR_PARTS * PART_SIZE < file.length) :
    (upload_large_file net send_ok file file_id file_path files).outcome = Outcome.failed
    ∧ Event.chunkRead 0 PART_SIZE
        ∈ (upload_large_file net send_ok file file_id file_path files).events
    ∧ ∀ e ∈ (upload_large_file net send_ok file file_id file_path files).events,
        e.isNetSend = false :=
  upload_large_file_limit net send_ok file file_id file_path files h

/-- File of 2500 full parts (Regular limit is 2000), as in spec Scenario C. -/
def bigFile2500 : List Nat := List.replicate (2500 * PART_SIZE) 0

/-- Claim C1, counterexample.  A Regular upload with `totalParts = 2500`
(limit 2000) is not rejected before any chunk is read: chunk 0 is read in
full (a `chunkRead` event is in the trace), contradicting the claimed eager
`PartLimitExceeded` rejection; the failure is only discovered mid-upload
after per-chunk retries. -/
theorem C1_eager_rejection_cx :
    (upload_large_file (fun _ _ => NetOutcome.ok) true bigFile2500 3 "p" ["p"]).outcome
        = Outcome.failed
    ∧ Event.chunkRead 0 PART_SIZE
        ∈ (upload_large_file (fun _ _ => NetOutcome.ok) true bigFile2500 3 "p" ["p"]).events := by
  have h : MAX_REGULAR_PARTS * PART_SIZE < bigFile2500.length := by
    simp only [bigFile2500, List.length_replicate]
    decide
  exact ⟨(upload_large_file_limit _ _ _ _ _ _ h).1, (upload_large_file_limit _ _ _ _ _ _ h).2.1⟩

/-- Claim C1, witness for the amended theorem at the Scenario C input. -/
theorem C1_part_limit_not_eager_witness :
    MAX_REGULAR_PARTS * PART_SIZE < bigFile2500.length
    ∧ (upload_large_file (fun _ _ => NetOutcome.err false) true bigFile2500 3 "p" ["p"]).outcome
        = Outcome.failed := by
  have h : MAX_REGULAR_PARTS * PART_SIZE < bigFile2500.length := by
    simp only [bigFile2500, List.length_replicate]
    decide
  exact ⟨h, (C1_part_limit_not_eager (fun _ _ => NetOutcome.err false) true bigFile2500 3 "p"
    ["p"] h).1⟩

/-- Claim C2.  If some chunk index inside the plan fails its task (exhausts
all three attempts, or propagates the rate-limit `UploadError`), the whole
upload reports failure (`return False` through the `except UploadError`
branch) and no file reference is built. -/
theorem C2_all_or_nothing (net : Nat → Nat → NetOutcome) (send_ok : Bool) (file : List Nat)
    (file_id : Nat) (file_path : String) (files : List String) (i : Nat)
    (hi : i < totalParts file.length)
    (hfail : except_ok (upload_part (net i) file file_id i (totalParts file.length) false).1
        = false) :
    (upload_large_file net send_ok file file_id file_path files).outcome = Outcome.failed
    ∧ (upload_large_file net send_ok file file_id file_path files).reference = none := by
  have hall := all_ok_false_of_fail net file file_id (totalParts file.length) i hi hfail
  constructor
  · rw [upload_outcome_eq, if_neg (by simp [hall])]
  · rw [upload_reference_eq, if_neg (by simp [hall])]

/-- Two-part file (one byte past one part) whose transport always fails. -/
def twoPartFile : List Nat := List.replicate (PART_SIZE + 1) 0

/-- Claim C2, witness: with every transport call failing, chunk 0 of a
two-part file exhausts its attempts and the upload fails with no reference. -/
theorem C2_all_or_nothing_witness :
    0 < totalParts twoPartFile.length
    ∧ except_ok (upload_part (fun _ => NetOutcome.err false) twoPartFile 11 0
        (totalParts twoPartFile.length) false).1 = false
    ∧ (upload_large_file (fun _ _ => NetOutcome.err false) true twoPartFile 11 "p" ["p"]).outcome
        = Outcome.failed
    ∧ (upload_large_file (fun _ _ => NetOutcome.err false) true twoPartFile 11 "p" ["p"]).reference
        = none := by
  have htp : totalParts twoPartFile.length = 2 := by
    simp only [twoPartFile, List.length_replicate]
    decide
  have hlen : (read_chunk twoPartFile 0).length = PART_SIZE := by
    simp only [read_chunk, List.length_take, List.length_drop, Nat.zero_mul, Nat.sub_zero,
      twoPartFile, List.length_replicate, PART_SIZE]
    omega
  have hfail : except_ok (upload_part (fun _ => NetOutcome.err false) twoPartFile 11 0
      (totalParts twoPartFile.length) false).1 = false := by
    rw [htp]
    simp only [upload_part, hlen]
    rw [run_attempts_transport_fail (fun _ => NetOutcome.err false) (fun _ => rfl) 11 0
      PART_SIZE 2 false (by decide) (by decide) (by decide) (by decide)]
    rfl
  have hres := C2_all_or_nothing (fun _ _ => NetOutcome.err false) true twoPartFile 11 "p" ["p"]
    0 (by rw [htp]; decide) hfail
  exact ⟨by rw [htp]; decide, hfail, hres.1, hres.2⟩

/-- Claim C3, counterexample.  Calling the part uploader with an empty chunk
(length 0) is not fatal-without-retry: the scheduler's retry loop invokes
`upload_file_part` on the same empty chunk at attempts 0, 1 and 2 (three
`partCall` events with backoff sleeps between them) before failing the task,
because the `EmptyChunk` `UploadError` is caught inside `upload_file_part`
itself and turned into `return False`. -/
theorem C3_empty_chunk_retried_cx :
    (run_attempts (fun _ => NetOutcome.ok) 0 0 0 5 false 3 0).2
      = [Event.partCall 0 0 0, Event.sleep 1, Event.partCall 0 1 0, Event.sleep 2,
         Event.partCall 0 2 0, Event.sleep 4]
    ∧ (run_attempts (fun _ => NetOutcome.ok) 0 0 0 5 false 3 0).1
      = Except.error "Falha no upload da parte" :=
  ⟨rfl, rfl⟩

/-- Claim C3 (amended).  An empty chunk or an oversized non-final chunk makes
every `upload_file_part` call return `False` (its `UploadError` is swallowed
by its own handler), so the scheduler retries that chunk on all three
attempts with backoff — no network call is made on any attempt — and then the
task, and hence the whole upload, fails with the generic per-part error. -/
theorem C3_invalid_chunk_retried (net : Nat → NetOutcome)
    (file_id part_index bytes_len total_parts : Nat) (prem : Bool)
    (hlim : ¬ tier_limit prem < total_parts)
    (hbad : bytes_len = 0 ∨ (PART_SIZE < bytes_len ∧ part_index + 1 ≠ total_parts)) :
    (run_attempts net file_id part_index bytes_len total_parts prem 3 0).1
      = Except.error "Falha no upload da parte"
    ∧ (run_attempts net file_id part_index bytes_len total_parts prem 3 0).2
      = [Event.partCall part_index 0 bytes_len, Event.sleep 1,
         Event.partCall part_index 1 bytes_len, Event.sleep 2,
         Event.partCall part_index 2 bytes_len, Event.sleep 4] := by
  have hstep : ∀ a : Nat, upload_file_part (net a) file_id part_index bytes_len total_parts prem
      = { result := Except.ok false, events := [] } := by
    intro a
    rcases hbad with h0 | hsz
    · subst h0
      simp [upload_file_part, hlim]
    · simp [upload_file_part, hlim, hsz, hsz.1, hsz.2]
  constructor <;> simp [run_attempts, hstep, pow_succ, pow_zero]

/-- Claim C3, witness for the amended theorem: empty chunk, 5-part plan. -/
theorem C3_invalid_chunk_retried_witness :
    ¬ tier_limit false < 5
    ∧ ((0:Nat) = 0 ∨ (PART_SIZE < 0 ∧ (0:Nat) + 1 ≠ 5))
    ∧ (run_attempts (fun _ => NetOutcome.err false) 9 0 0 5 false 3 0).1
        = Except.error "Falha no upload da parte" :=
  ⟨by decide, Or.inl rfl,
    (C3_invalid_chunk_retried (fun _ => NetOutcome.err false) 9 0 0 5 false (by decide)
      (Or.inl rfl)).1⟩

/-- Claim C4.  For a multi-part plan derived from a file of size `n`, the
wire method is `upload.saveBigFilePart` exactly when `totalParts * PART_SIZE`
exceeds the 10 MiB threshold; because the threshold is an exact multiple of
`PART_SIZE`, this part-volume basis coincides with the `use_big_file`
protocol choice made from the raw file size (`fileSize > threshold`); and
every network event the part uploader can emit carries exactly this method. -/
theorem C4_protocol_basis (n : Nat) (h0 : 0 < n) (h1 : 1 < totalParts n) :
    (wire_method (totalParts n) = "upload.saveBigFilePart"
        ↔ BIG_FILE_THRESHOLD < totalParts n * PART_SIZE)
    ∧ (BIG_FILE_THRESHOLD < totalParts n * PART_SIZE ↔ BIG_FILE_THRESHOLD < n)
    ∧ ∀ net file_id part_index bytes_len prem e,
        e ∈ (upload_file_part net file_id part_index bytes_len (totalParts n) prem).events →
        e = Event.netSend (wire_method (totalParts n)) file_id part_index := by
  refine ⟨?_, ?_, ?_⟩
  · by_cases hc : BIG_FILE_THRESHOLD < totalParts n * PART_SIZE
    · simp [wire_method, hc]
    · simp [wire_method, hc]
  · simp only [totalParts, PART_SIZE, BIG_FILE_THRESHOLD]
    constructor <;> intro hlt <;> omega
  · intro net file_id part_index bytes_len prem e he
    unfold upload_file_part at he
    repeat' split at he
    all_goals simp_all

/-- Claim C4, witness at an 11 MiB file: 22 parts, big-file wire method. -/
theorem C4_protocol_basis_witness :
    0 < 11534336
    ∧ 1 < totalParts 11534336
    ∧ (wire_method (totalParts 11534336) = "upload.saveBigFilePart"
        ↔ BIG_FILE_THRESHOLD < totalParts 11534336 * PART_SIZE) :=
  ⟨by decide, by decide, (C4_protocol_basis 11534336 (by decide) (by decide)).1⟩

/-- Claim C5.  Whenever `upload_large_file` completes successfully, the built
reference is tagged big exactly by the `fileSize > threshold` protocol
choice, carries an `md5_checksum` exactly when the small-file protocol was
selected, and the digest was computed (before the upload) exactly in that
same case. -/
theorem C5_checksum_iff_small (net : Nat → Nat → NetOutcome) (send_ok : Bool) (file : List Nat)
    (file_id : Nat) (file_path : String) (files : List String)
    (h : (upload_large_file net send_ok file file_id file_path files).outcome
        = Outcome.success) :
    ∃ r, (upload_large_file net send_ok file file_id file_path files).reference = some r
      ∧ r.isBig = decide (BIG_FILE_THRESHOLD < file.length)
      ∧ r.md5_checksum.isSome = !r.isBig
      ∧ (upload_large_file net send_ok file file_id file_path files).md5_computed = !r.isBig := by
  rw [upload_outcome_eq] at h
  by_cases hall : (run_parts net file file_id (totalParts file.length)).all
      (fun p => except_ok p.1) = true
  · refine ⟨_, by rw [upload_reference_eq, if_pos hall], rfl, ?_, ?_⟩
    · by_cases hb : BIG_FILE_THRESHOLD < file.length <;> simp [hb]
    · rw [upload_md5_computed_eq]
  · rw [if_neg hall] at h
    exact absurd h (by simp)

/-- Claim C5, witness: a one-byte file uploads successfully under the
small-file protocol and its reference carries the checksum. -/
theorem C5_checksum_iff_small_witness :
    (upload_large_file (fun _ _ => NetOutcome.ok) true [3] 9 "p" ["p"]).outcome
        = Outcome.success
    ∧ ∃ r, (upload_large_file (fun _ _ => NetOutcome.ok) true [3] 9 "p" ["p"]).reference = some r
        ∧ r.isBig = decide (BIG_FILE_THRESHOLD < ([3] : List Nat).length)
        ∧ r.md5_checksum.isSome = !r.isBig
        ∧ (upload_large_file (fun _ _ => NetOutcome.ok) true [3] 9 "p" ["p"]).md5_computed
            = !r.isBig :=
  ⟨rfl, C5_checksum_iff_small (fun _ _ => NetOutcome.ok) true [3] 9 "p" ["p"] rfl⟩

/-- Claim C6.  For a nonempty file, the chunks the scheduler reads (chunk `i`
being the `PART_SIZE` bytes from offset `i * PART_SIZE`) concatenate in index
order back to the file, and their lengths sum to the file size exactly. -/
theorem C6_chunk_round_trip (file : List Nat) (h : file ≠ []) :
    ((List.range (totalParts file.length)).map (read_chunk file)).flatten = file
    ∧ ((List.range (totalParts file.length)).map (fun i => (read_chunk file i).length)).sum
        = file.length := by
  have hle : file.length ≤ totalParts file.length * PART_SIZE := by
    simp only [totalParts, PART_SIZE]
    omega
  have hflat : ((List.range (totalParts file.length)).map (read_chunk file)).flatten = file := by
    have hc := flatten_chunks file PART_SIZE (totalParts file.length)
    have hfun : read_chunk file = fun i => (file.drop (i * PART_SIZE)).take PART_SIZE := rfl
    rw [hfun, hc, List.take_of_length_le hle]
  refine ⟨hflat, ?_⟩
  have hlen := congrArg List.length hflat
  rw [List.length_flatten, List.map_map] at hlen
  simpa [Function.comp] using hlen

/-- Claim C6, witness on a one-byte file. -/
theorem C6_chunk_round_trip_witness :
    (([5] : List Nat) ≠ [])
    ∧ ((List.range (totalParts ([5] : List Nat).length)).map (read_chunk [5])).flatten = [5] :=
  ⟨by simp, (C6_chunk_round_trip [5] (by simp)).1⟩

/-- Claim C7.  `totalParts` is the ceiling of `fileSize / PART_SIZE`
(characterised by `(totalParts - 1) * PART_SIZE < n ≤ totalParts * PART_SIZE`),
and a plan with a single part performs no network part-upload call at all:
`bot.send` is reached only when `totalParts > 1`. -/
theorem C7_ceil_and_single_part (file : List Nat) (h : file ≠ []) :
    ((totalParts file.length - 1) * PART_SIZE < file.length
      ∧ file.length ≤ totalParts file.length * PART_SIZE)
    ∧ (totalParts file.length = 1 →
        ∀ (net : Nat → Nat → NetOutcome) (send_ok : Bool) (file_id : Nat)
          (file_path : String) (files : List String),
          ∀ e ∈ (upload_large_file net send_ok file file_id file_path files).events,
            e.isNetSend = false) := by
  have hpos : 0 < file.length := List.length_pos.mpr h
  constructor
  · simp only [totalParts, PART_SIZE]
    constructor <;> omega
  · intro htp net send_ok file_id file_path files e he
    rw [upload_events_eq, htp] at he
    have hrp : run_parts net file file_id 1 = [upload_part (net 0) file file_id 0 1 false] := by
      simp [run_parts, List.range_succ]
    rw [hrp, upload_part_single (net 0) file file_id h] at he
    simp only [List.map_cons, List.map_nil, List.flatten_cons, List.flatten_nil,
      List.append_nil, List.mem_cons, List.not_mem_nil, or_false] at he
    rcases he with rfl | rfl <;> rfl

/-- Claim C7, witness on a one-byte file (a genuine single-part plan). -/
theorem C7_ceil_and_single_part_witness :
    (([5] : List Nat) ≠ [])
    ∧ (totalParts ([5] : List Nat).length - 1) * PART_SIZE < ([5] : List Nat).length :=
  ⟨by simp, (C7_ceil_and_single_part [5] (by simp)).1.1⟩

/-- Claim C8, counterexample.  `upload_large_file` itself does not reject a
file of size 0: with an empty file `totalParts = 0`, the empty gather
succeeds, and a file reference with `parts = 0` (and a checksum of the empty
file) is built and sent. -/
theorem C8_zero_size_cx :
    (upload_large_file (fun _ _ => NetOutcome.ok) true [] 7 "p" ["p"]).outcome = Outcome.success
    ∧ (upload_large_file (fun _ _ => NetOutcome.ok) true [] 7 "p" ["p"]).reference
        = some { isBig := false, id := 7, parts := 0, name := "p",
                 md5_checksum := some (compute_md5 []) } :=
  ⟨rfl, rfl⟩

/-- Claim C8 (amended).  The zero-parts case is excluded only upstream: the
`send_media` caller routes a file to `upload_large_file` exactly when it is
larger than 50 MiB (and within `MAX_FILE_SIZE`), so every upload attempt that
actually occurs in the system has `totalParts ≥ 1` and every reference it
builds has a positive part count. -/
theorem C8_route_guard (max_file_size n : Nat)
    (h : send_media_large_route max_file_size n = true) :
    1 ≤ totalParts n
    ∧ ∀ (net : Nat → Nat → NetOutcome) (send_ok : Bool) (file : List Nat) (file_id : Nat)
        (file_path : String) (files : List String) (r : InputFileObj),
        file.length = n →
        (upload_large_file net send_ok file file_id file_path files).reference = some r →
        1 ≤ r.parts := by
  have hn : 50 * 1024 * 1024 < n := by
    simp only [send_media_large_route, Bool.and_eq_true, decide_eq_true_eq] at h
    exact h.2
  have htp : 1 ≤ totalParts n := by
    simp only [totalParts, PART_SIZE]
    omega
  refine ⟨htp, ?_⟩
  intro net send_ok file file_id file_path files r hlen href
  rw [upload_reference_eq] at href
  split at href
  · rw [Option.some.injEq] at href
    rw [← href]
    simpa [hlen] using htp
  · exact absurd href (by simp)

/-- Claim C8, witness for the amended theorem at a 60 MiB file size. -/
theorem C8_route_guard_witness :
    send_media_large_route (2 * 1024 * 1024 * 1024) (60 * 1024 * 1024) = true
    ∧ 1 ≤ totalParts (60 * 1024 * 1024) :=
  ⟨by decide, (C8_route_guard (2 * 1024 * 1024 * 1024) (60 * 1024 * 1024) (by decide)).1⟩

/-- Semaphore count bookkeeping: in every reachable scheduler state, the free
permits plus the tasks inside the admitted region (holding or in a network
call) account for exactly the 4 permits of `asyncio.Semaphore(4)`. -/
lemma sched_invariant (n : Nat) (s : Sched) (h : SchedReach n s) :
    s.avail + (Multiset.count Phase.holding s.tasks + Multiset.count Phase.inNet s.tasks) = 4 := by
  induction h with
  | refl =>
    simp [initSched, Multiset.count_replicate]
  | tail s t hr hstep ih =>
    cases hstep <;> simp_all [Multiset.count_cons] <;> omega

/-- Claim C9.  In every state reachable under the admission-gate discipline
of `asyncio.Semaphore(4)`, at most 4 part-upload network calls are
outstanding simultaneously, and the bound is enforced by permit counting:
free permits plus admitted tasks always equal 4 (so a finishing task
immediately frees a permit for the next pending chunk, with no batch
partitioning). -/
theorem C9_concurrency_bound (n : Nat) (s : Sched) (h : SchedReach n s) :
    Multiset.count Phase.inNet s.tasks ≤ 4
    ∧ s.avail + (Multiset.count Phase.holding s.tasks + Multiset.count Phase.inNet s.tasks)
        = 4 := by
  have hi := sched_invariant n s h
  exact ⟨by omega, hi⟩

/-- Claim C9, witness: the initial state of a 6-part upload, one admission
step, and one network entry are all reachable and respect the bound. -/
theorem C9_concurrency_bound_witness :
    SchedReach 6 (initSched 6)
    ∧ Multiset.count Phase.inNet (initSched 6).tasks ≤ 4 :=
  ⟨SchedReach.refl, (C9_concurrency_bound 6 (initSched 6) SchedReach.refl).1⟩

/-- Claim C10.  After every call to `upload_large_file` — success, caught
`UploadError`, or a propagating exception alike — the input file path no
longer exists (the `finally` block removes it when present), and no other
path is touched. -/
theorem C10_file_consumed (net : Nat → Nat → NetOutcome) (send_ok : Bool) (file : List Nat)
    (file_id : Nat) (file_path : String) (files : List String) :
    file_path ∉ (upload_large_file net send_ok file file_id file_path files).files_after
    ∧ ∀ q, q ≠ file_path →
        ((q ∈ (upload_large_file net send_ok file file_id file_path files).files_after)
          ↔ q ∈ files) := by
  rw [upload_files_after_eq]
  constructor
  · intro hmem
    have := (List.mem_filter.mp hmem).2
    simp at this
  · intro q hq
    simp [List.mem_filter, hq]

/-- Claim C10, witness: a concrete upload removes its input file and keeps
the unrelated one. -/
theorem C10_file_consumed_witness :
    "p" ∉ (upload_large_file (fun _ _ => NetOutcome.ok) true [3] 9 "p" ["p", "q"]).files_after
    ∧ ("q" ∈ (upload_large_file (fun _ _ => NetOutcome.ok) true [3] 9 "p"
        ["p", "q"]).files_after ↔ "q" ∈ (["p", "q"] : List String)) :=
  ⟨(C10_file_consumed (fun _ _ => NetOutcome.ok) true [3] 9 "p" ["p", "q"]).1,
    (C10_file_consumed (fun _ _ => NetOutcome.ok) true [3] 9 "p" ["p", "q"]).2 "q" (by decide)⟩

end Upload
